import Mathlib

/-
Verification development for the zynaudioplayer core
(src/zynlibs/zynaudioplayer/player.c).

The C code is shallowly embedded over exact arithmetic:
- C float/double values are modelled as rationals;
- fixed-width machine integers are modelled as Nat/Int, with explicit
  truncation (mod 2^32) at the points where the C code converts a wider
  or floating value into a narrower unsigned integer;
- the two jack ring buffers are modelled by their queued sample contents
  (lists of samples), and the byte-level write/wait arithmetic of the
  worker is modelled separately on byte counts;
- the registered notification callback is modelled by recording the
  (parameter, value) pairs that would be delivered.
-/

namespace Zyn

-- Transport states (enum playState, player.c:29-34)
def STOPPED : Nat := 0

def STARTING : Nat := 1

def PLAYING : Nat := 2

def STOPPING : Nat := 3

-- Worker read states (enum seekState, player.c:36-41)
def IDLE : Nat := 0

def SEEKING : Nat := 1

def LOADING : Nat := 2

def LOOPING : Nat := 3

-- MAX_PLAYERS (player.c:27): capacity of the g_players registry table
def MAX_PLAYERS : Int := 17

/-- Notification parameter tags (NOTIFY_* constants from the public header).
Only their distinctness matters to the embedded logic. -/
inductive NotifyParam where
  | ALL
  | TRANSPORT
  | POSITION
  | GAIN
  | LOOP
  | LOOP_START
  | LOOP_END
  | TRACK_A
  | TRACK_B
  | QUALITY
  | DEBUG
deriving DecidableEq, Repr

/-- A notification delivered to the registered callback: tag and float payload. -/
abbrev Notif := NotifyParam × ℚ

/-- C conversion of a floating value to an integer type: truncation toward zero. -/
def cTrunc (q : ℚ) : Int := Int.tdiv q.num (q.den : Int)

/-- C conversion of a (possibly wider signed) integer value to uint32. -/
def toU32 (i : Int) : Nat := (i % 4294967296).toNat

/-- C wrap of an unsigned computation into uint32. -/
def wrap32 (n : Nat) : Nat := n % 4294967296

/-- The last-notified snapshot fields of struct AUDIO_PLAYER (player.c:68-80).
last_play_state is a uint8 in the source and is set to (uint8)-1 = 255 at file
open; the loop bound snapshots are sf_count_t set to -1, hence Int here. -/
structure Snapshot where
  play_state : Nat
  position : ℚ
  gain : ℚ
  loop : Bool
  loop_start : Int
  loop_end : Int
  track_a : Int
  track_b : Int
  src_quality : Nat
deriving DecidableEq, Repr

/-- struct AUDIO_PLAYER (player.c:43-97), restricted to the fields the embedded
operations read or write.  sf_info is inlined as samplerate/channels/sf_frames.
src_ratio is named src_rat here. jack ports, pthread id and the callback
object pointer are not part of the embedded state; the presence of a
registered callback is the flag has_cb. -/
structure AudioPlayer where
  handle : Nat
  file_open : Nat            -- 0 = closed, 1 = opening, 2 = open
  file_read_status : Nat     -- IDLE | SEEKING | LOADING | LOOPING
  play_state : Nat           -- STOPPED | STARTING | PLAYING | STOPPING
  file_read_pos : Int        -- sf_count_t
  loop : Bool
  loop_loaded : Bool
  loop_start : Nat           -- sf_count_t, kept non-negative by the code
  loop_start_src : Nat
  loop_end : Nat
  loop_end_src : Nat
  gain : ℚ
  track_a : Int
  track_b : Int
  input_buffer_size : Nat
  output_buffer_size : Nat
  buffer_count : Nat
  src_quality : Nat
  last : Snapshot
  samplerate : Nat           -- sf_info.samplerate
  channels : Nat             -- sf_info.channels
  sf_frames : Nat            -- sf_info.frames
  ringbuffer_a : List ℚ      -- queued samples of leg A
  ringbuffer_b : List ℚ      -- queued samples of leg B
  play_pos_frames : Nat      -- jack_nframes_t (uint32)
  frames : Nat               -- frame count after samplerate conversion (size_t)
  filename : String
  last_note_played : Nat
  src_rat : ℚ                -- src_ratio in the source
  pitch_shift : ℚ
  pitch_bend : Nat
  has_cb : Bool
  pos_notify_delta : ℚ
deriving DecidableEq, Repr

/-- The notification callback invocation (player.c guarded calls through cb_fn):
the callback is invoked only when a callback is registered; the snapshot
update happens regardless. -/
def emit (p : AudioPlayer) (x : Notif) : List Notif :=
  if p.has_cb then [x] else []

/-- get_position (player.c:515-520), for the player behind a valid handle;
gsr is the global g_samplerate. -/
def get_position (gsr : Nat) (p : AudioPlayer) : ℚ :=
  if p.file_open = 2 ∧ gsr ≠ 0 then (p.play_pos_frames : ℚ) / (gsr : ℚ) else 0

/-- get_loop_start_time (player.c:554-559) for the player behind a valid handle. -/
def get_loop_start_time (p : AudioPlayer) : ℚ :=
  if p.samplerate = 0 then 0 else (p.loop_start : ℚ) / (p.samplerate : ℚ)

/-- get_loop_end_time (player.c:574-579) for the player behind a valid handle. -/
def get_loop_end_time (p : AudioPlayer) : ℚ :=
  if p.samplerate = 0 then 0 else (p.loop_end : ℚ) / (p.samplerate : ℚ)

/-- The per-field body of send_notifications (player.c:148-202): each branch
fires when the parameter selects it and the current value differs from the
last-notified snapshot (position uses pos_notify_delta, gain an absolute
tolerance of 0.01, the rest exact inequality); it updates the snapshot and,
when a callback is registered, emits (tag, value as float).  The NOTIFY_DEBUG
branch compares only the global debug flags and is omitted. -/
def notif_pass (gsr : Nat) (p : AudioPlayer) (param : NotifyParam) :
    Snapshot × List Notif :=
  let s0 := p.last
  let r1 : Snapshot × List Notif :=
    if (param = .ALL ∨ param = .TRANSPORT) ∧ s0.play_state ≠ p.play_state then
      ({s0 with play_state := p.play_state}, emit p (.TRANSPORT, (p.play_state : ℚ)))
    else (s0, [])
  let s1 := r1.1
  let r2 : Snapshot × List Notif :=
    if (param = .ALL ∨ param = .POSITION) ∧
        |get_position gsr p - s1.position| ≥ p.pos_notify_delta then
      ({s1 with position := get_position gsr p}, emit p (.POSITION, get_position gsr p))
    else (s1, [])
  let s2 := r2.1
  let r3 : Snapshot × List Notif :=
    if (param = .ALL ∨ param = .GAIN) ∧ |p.gain - s2.gain| ≥ 1/100 then
      ({s2 with gain := p.gain}, emit p (.GAIN, p.gain))
    else (s2, [])
  let s3 := r3.1
  let r4 : Snapshot × List Notif :=
    if (param = .ALL ∨ param = .LOOP) ∧ p.loop ≠ s3.loop then
      ({s3 with loop := p.loop}, emit p (.LOOP, if p.loop then 1 else 0))
    else (s3, [])
  let s4 := r4.1
  let r5 : Snapshot × List Notif :=
    if (param = .ALL ∨ param = .LOOP_START) ∧ (p.loop_start : Int) ≠ s4.loop_start then
      ({s4 with loop_start := (p.loop_start : Int)},
        emit p (.LOOP_START, get_loop_start_time p))
    else (s4, [])
  let s5 := r5.1
  let r6 : Snapshot × List Notif :=
    if (param = .ALL ∨ param = .LOOP_END) ∧ (p.loop_end : Int) ≠ s5.loop_end then
      ({s5 with loop_end := (p.loop_end : Int)},
        emit p (.LOOP_END, get_loop_end_time p))
    else (s5, [])
  let s6 := r6.1
  let r7 : Snapshot × List Notif :=
    if (param = .ALL ∨ param = .TRACK_A) ∧ p.track_a ≠ s6.track_a then
      ({s6 with track_a := p.track_a}, emit p (.TRACK_A, (p.track_a : ℚ)))
    else (s6, [])
  let s7 := r7.1
  let r8 : Snapshot × List Notif :=
    if (param = .ALL ∨ param = .TRACK_B) ∧ p.track_b ≠ s7.track_b then
      ({s7 with track_b := p.track_b}, emit p (.TRACK_B, (p.track_b : ℚ)))
    else (s7, [])
  let s8 := r8.1
  let r9 : Snapshot × List Notif :=
    if (param = .ALL ∨ param = .QUALITY) ∧ p.src_quality ≠ s8.src_quality then
      ({s8 with src_quality := p.src_quality}, emit p (.QUALITY, (p.src_quality : ℚ)))
    else (s8, [])
  (r9.1, r1.2 ++ r2.2 ++ r3.2 ++ r4.2 ++ r5.2 ++ r6.2 ++ r7.2 ++ r8.2 ++ r9.2)

/-- send_notifications (player.c:148-202): a no-op unless the file is open;
otherwise runs the per-field pass, replacing the last-notified snapshot and
returning the emitted notifications. -/
def send_notifications (gsr : Nat) (p : AudioPlayer) (param : NotifyParam) :
    AudioPlayer × List Notif :=
  if p.file_open ≠ 2 then (p, [])
  else
    let r := notif_pass gsr p param
    ({p with last := r.1}, r.2)

/-- stop_playback (player.c:595-600): request STOPPING unless already STOPPED,
then run the transport notification pass. -/
def stop_playback (gsr : Nat) (p : AudioPlayer) : AudioPlayer × List Notif :=
  let p1 := if p.play_state ≠ STOPPED then {p with play_state := STOPPING} else p
  send_notifications gsr p1 NotifyParam.TRANSPORT

/-- The epilogue of the worker thread (player.c:404-423), whose effects are
visible to the caller once the thread is joined: force STOPPED, close the file
(clearing the filename when the close succeeds, abstracted by file_ok),
reset the play position, clear the callback registration and free both ring
buffers. -/
def worker_epilogue (file_ok : Bool) (p : AudioPlayer) : AudioPlayer :=
  let p := {p with play_state := STOPPED}
  let p := if file_ok then {p with filename := ""} else p
  {p with play_pos_frames := 0, has_cb := false,
          ringbuffer_a := [], ringbuffer_b := []}

/-- unload (player.c:459-469): a no-op when the file is already closed;
otherwise request stop, clear the open flag and the callback, join the worker
(modelled by applying its epilogue) and clear the filename. -/
def unload (gsr : Nat) (p : AudioPlayer) : AudioPlayer × List Notif :=
  if p.file_open = 0 then (p, [])
  else
    let r := stop_playback gsr p
    let p1 := {r.1 with file_open := 0, has_cb := false}
    (worker_epilogue true p1, r.2)

/-- set_gain (player.c:930-938): a no-op unless the file is open; a gain
outside [0, 2] is rejected before any mutation; otherwise the gain is stored
and the gain notification pass runs. -/
def set_gain (gsr : Nat) (p : AudioPlayer) (gain : ℚ) : AudioPlayer × List Notif :=
  if p.file_open ≠ 2 then (p, [])
  else if gain < 0 ∨ gain > 2 then (p, [])
  else send_notifications gsr {p with gain := gain} NotifyParam.GAIN

/-- get_gain (player.c:940-945): 0.0 unless the file is open. -/
def get_gain (p : AudioPlayer) : ℚ :=
  if p.file_open ≠ 2 then 0 else p.gain

/-- A concrete, fully specified player used to instantiate theorems: an open
stereo file of 100 native frames at native rate 10, unity resample ratio. -/
def basePlayer : AudioPlayer where
  handle := 0
  file_open := 2
  file_read_status := LOADING
  play_state := STOPPED
  file_read_pos := 0
  loop := false
  loop_loaded := false
  loop_start := 0
  loop_start_src := 0
  loop_end := 100
  loop_end_src := 100
  gain := 1
  track_a := 0
  track_b := 0
  input_buffer_size := 48000
  output_buffer_size := 48000
  buffer_count := 5
  src_quality := 2
  last := { play_state := STOPPED, position := 0, gain := 1, loop := false,
            loop_start := 0, loop_end := 100, track_a := 0, track_b := 0,
            src_quality := 2 }
  samplerate := 10
  channels := 2
  sf_frames := 100
  ringbuffer_a := []
  ringbuffer_b := []
  play_pos_frames := 0
  frames := 100
  filename := "test.wav"
  last_note_played := 0
  src_rat := 1
  pitch_shift := 1
  pitch_bend := 8192
  has_cb := false
  pos_notify_delta := 1/10

/-- Conversion of a time in seconds to native frames as performed by the loop
setters (player.c:545, 565): jack_nframes_t frames = sf_info.samplerate * time,
the float product truncated into uint32. -/
def time_to_native_frames (p : AudioPlayer) (time : ℚ) : Nat :=
  toU32 (cTrunc ((p.samplerate : ℚ) * time))

/-- set_position (player.c:493-513): a no-op unless the file is open;
converts the requested time to output-rate frames, clamps into the loop
bounds when looping or below the post-SRC total otherwise, stores the new
position, requests SEEKING, drops both ring buffers and runs the position
notification pass. -/
def set_position (gsr : Nat) (p : AudioPlayer) (time : ℚ) : AudioPlayer × List Notif :=
  if p.file_open ≠ 2 then (p, [])
  else
    let frames0 : Int := cTrunc (time * (gsr : ℚ))
    let frames1 : Int :=
      if p.loop then
        let f := if frames0 > (p.loop_end_src : Int) then (p.loop_end_src : Int) else frames0
        if f < (p.loop_start_src : Int) then (p.loop_start_src : Int) else f
      else
        if frames0 ≥ (p.frames : Int) then (p.frames : Int) - 1 else frames0
    let p1 := {p with play_pos_frames := toU32 frames1,
                      file_read_status := SEEKING,
                      ringbuffer_b := [], ringbuffer_a := []}
    send_notifications gsr p1 NotifyParam.POSITION

/-- set_loop_start_time (player.c:541-552): converts the time to native
frames; returns without any mutation when the result is not below the current
loop end; otherwise stores the new start and its output-rate image, and
re-seeks to the current position when the play position fell below the new
output-rate start. -/
def set_loop_start_time (gsr : Nat) (p : AudioPlayer) (time : ℚ) :
    AudioPlayer × List Notif :=
  let frames := time_to_native_frames p time
  if frames ≥ p.loop_end then (p, [])
  else
    let p1 := {p with loop_start := frames,
                      loop_start_src := (cTrunc ((frames : ℚ) * p.src_rat)).toNat}
    if p1.play_pos_frames < p1.loop_start_src then
      set_position gsr p1 (get_position gsr p1)
    else (p1, [])

/-- set_loop_end_time (player.c:561-572): converts the time to native frames;
returns without any mutation when the result is not above the current loop
start or not below the post-SRC total frame count; otherwise stores the new
end and its output-rate image, and re-seeks when the play position exceeds
the new output-rate end. -/
def set_loop_end_time (gsr : Nat) (p : AudioPlayer) (time : ℚ) :
    AudioPlayer × List Notif :=
  let frames := time_to_native_frames p time
  if frames ≤ p.loop_start ∨ frames ≥ p.frames then (p, [])
  else
    let p1 := {p with loop_end := frames,
                      loop_end_src := (cTrunc ((frames : ℚ) * p.src_rat)).toNat}
    if p1.play_pos_frames > p1.loop_end_src then
      set_position gsr p1 (get_position gsr p1)
    else (p1, [])

/-- The base player with resample ratio 2: native total 100 frames,
post-SRC total 200 frames. -/
def srcDoubledPlayer : AudioPlayer :=
  {basePlayer with src_rat := 2, frames := 200, loop_end_src := 200}

/-- The even-indexed source channels visited by the leg-A downmix loop
(player.c:373): track = 0, 2, 4, ... while track < channels. -/
def even_channels (channels : Nat) : List Nat :=
  (List.range channels).filter (fun t => t % 2 == 0)

/-- The odd-indexed source channels visited by the leg-B downmix loop
(player.c:381): track + 1 = 1, 3, 5, ... while track + 1 < channels. -/
def odd_channels (channels : Nat) : List Nat :=
  (List.range channels).filter (fun t => t % 2 == 1)

/-- The leg-A sample demuxed from one interleaved frame s (player.c:367-391):
a multi-channel source with track_a < 0 accumulates every even channel sample
divided by channels/2 (integer division, converted to float); an explicit
track_a copies that channel; a mono source sends half of the single channel. -/
def demux_frame_a (channels : Nat) (track_a : Int) (s : List ℚ) : ℚ :=
  if 1 < channels then
    if track_a < 0 then
      ((even_channels channels).map
        (fun t => s.getD t 0 / ((channels / 2 : Nat) : ℚ))).sum
    else s.getD track_a.toNat 0
  else s.getD 0 0 / 2

/-- The leg-B sample demuxed from one interleaved frame s (player.c:367-391):
as for leg A but over the odd channels, with the same channels/2 divisor. -/
def demux_frame_b (channels : Nat) (track_b : Int) (s : List ℚ) : ℚ :=
  if 1 < channels then
    if track_b < 0 then
      ((odd_channels channels).map
        (fun t => s.getD t 0 / ((channels / 2 : Nat) : ℚ))).sum
    else s.getD track_b.toNat 0
  else s.getD 0 0 / 2

/-- Modelled from the spec wording only: the arithmetic mean of the samples of
the listed channels, used to compare the code's downmix against "average". -/
def channel_avg (idxs : List Nat) (s : List ℚ) : ℚ :=
  (idxs.map (fun t => s.getD t 0)).sum / (idxs.length : ℚ)

/-- The position-advance and boundary-detection step of on_jack_process
(player.c:690-706), run while PLAYING or STOPPING after r_count samples were
drained from the ring buffers this period: advance the uint32 play position,
detect end of data (worker IDLE and ring buffer A empty), then either wrap
and request a LOOPING reload (loop enabled) or reset to 0, request SEEKING
and start STOPPING (loop disabled). -/
def position_advance (p : AudioPlayer) (r_count : Nat) : AudioPlayer :=
  let p := {p with play_pos_frames := wrap32 (p.play_pos_frames + r_count)}
  let eof := p.file_read_status = IDLE ∧ p.ringbuffer_a = []
  if p.loop then
    if p.play_pos_frames ≥ p.loop_end_src ∨ eof then
      {p with play_pos_frames :=
                wrap32 (p.play_pos_frames % p.loop_end_src + p.loop_start_src),
              loop_loaded := false,
              file_read_status := LOOPING}
    else p
  else
    if p.play_pos_frames ≥ p.frames ∨ eof then
      {p with play_pos_frames := 0, play_state := STOPPING,
              file_read_status := SEEKING}
    else p

/-- The base player with loop enabled over output-rate bounds [50, 100),
playing at position 150 (just past the loop end) while the worker loads. -/
def loopOffsetPlayer : AudioPlayer :=
  {basePlayer with loop := true, loop_start_src := 50, loop_end_src := 100,
                   play_pos_frames := 150, file_read_status := LOADING}

/-- The base player with loop enabled over [0, 100), playing at position 90. -/
def loopZeroPlayer : AudioPlayer :=
  {basePlayer with loop := true, play_pos_frames := 90}

/-- The per-semitone pitch factor constant 1.059463094359 (player.c:743), the
source's 13-digit decimal approximation of the equal-tempered semitone ratio
2^(1/12) = 1.0594630943592953... -/
def SEMITONE_RAT : ℚ := 1059463094359 / 1000000000000

/-- Handling of one MIDI note / pitch-bend event routed to player p by
on_jack_process (player.c:732-754): cmd is the status nibble
(buffer[0] & 0xF0), note and vel the two data bytes.  A note-off — status
0x80, or 0x90 with zero velocity — whose note matches the last played note
stops playback, resets the pitch factor to 1 and clears the last note; any
other 0x90 event is a note-on trigger: pitch factor 1.059463094359^(60-note),
position to the output-rate loop start, SEEKING requested, both ring buffers
reset, note recorded, transport STARTING; 0xE0 stores the raw 14-bit
pitch-bend value.  (The 0xB0 block is compiled only under ENABLE_MIDI and is
not part of the built source.) -/
def midi_event (gsr : Nat) (p : AudioPlayer) (cmd note vel : Nat) :
    AudioPlayer × List Notif :=
  if (cmd = 0x80 ∨ (cmd = 0x90 ∧ vel = 0)) ∧ p.last_note_played = note then
    let r := stop_playback gsr p
    ({r.1 with pitch_shift := 1, last_note_played := 0}, r.2)
  else if cmd = 0x90 then
    ({p with pitch_shift := SEMITONE_RAT ^ ((60 : Int) - (note : Int)),
             play_pos_frames := p.loop_start_src,
             file_read_status := SEEKING,
             ringbuffer_a := [], ringbuffer_b := [],
             last_note_played := note,
             play_state := STARTING}, [])
  else if cmd = 0xE0 then
    ({p with pitch_bend := note + 128 * vel}, [])
  else (p, [])

/-- The base player with last played note 50 and a non-unit pitch factor. -/
def notePlayer : AudioPlayer :=
  {basePlayer with last_note_played := 50, pitch_shift := 2,
                   play_state := PLAYING}

/-- The base player with last played note 60, a non-unit pitch factor and
transport PLAYING. -/
def matchPlayer : AudioPlayer :=
  {basePlayer with last_note_played := 60, pitch_shift := 2,
                   play_state := PLAYING}

/-- jack_ringbuffer_write on the byte level: the count of bytes actually
written is the minimum of the requested count and the free space. -/
def rb_write_count (space req : Nat) : Nat := min req space

/-- The wait-for-space condition of the worker (player.c:356-359): the worker
keeps sleeping while BOTH ring buffers lack room for the whole demuxed block
(the source combines the two comparisons with &&), or while the read state is
IDLE; the sleep loop separately breaks when the player is closed
(file_open = 0).  nBytes = nFramesRead * sizeof(float). -/
def rb_wait_condition (spaceA spaceB nBytes read_status : Nat) : Bool :=
  (decide (spaceA < nBytes) && decide (spaceB < nBytes)) ||
    decide (read_status = IDLE)

/-- The underrun test of the demux loop (player.c:392-396): the frame's B
sample is written first and yields nWroteB = rb_write_count spaceB 4 bytes;
then nWroteB bytes of the A sample are written to buffer A, and the error
branch fires iff 4 < (bytes written to A). -/
def underrun_branch (spaceA spaceB : Nat) : Bool :=
  decide (4 < rb_write_count spaceA (rb_write_count spaceB 4))

/-- The file-open initialisation performed by the worker thread before it
enters its streaming loop (player.c:206-271), with the decoded format already
stored in samplerate/channels/sf_frames: clear the callback registration,
re-initialise the notification snapshot ((uint8)-1 = 255, float/sf_count_t
-1), reset position, loop bounds and read state, compute the resample ratio
(forced to 1 when below 0.1, which also covers a zero native rate), size the
output buffer, create empty pinned ring buffers, mark the file open, reset
pitch state and derive the output-rate frame counts. -/
def worker_open_init (gsr : Nat) (p : AudioPlayer) : AudioPlayer :=
  let ratio0 : ℚ := (gsr : ℚ) / (p.samplerate : ℚ)
  let ratio : ℚ := if ratio0 < 1/10 then 1 else ratio0
  {p with has_cb := false,
          last := {p.last with play_state := 255, position := -1,
                               loop_start := -1, loop_end := -1},
          play_pos_frames := 0,
          loop_start := 0,
          loop_end := p.sf_frames,
          loop_loaded := false,
          file_read_pos := 0,
          pos_notify_delta := 1/10,
          file_read_status := SEEKING,
          src_rat := ratio,
          output_buffer_size := (cTrunc (ratio * (p.input_buffer_size : ℚ))).toNat,
          ringbuffer_a := [], ringbuffer_b := [],
          file_open := 2,
          pitch_shift := 1,
          pitch_bend := 0x2000,
          frames := (cTrunc ((p.sf_frames : ℚ) * ratio)).toNat,
          loop_end_src := (cTrunc ((p.sf_frames : ℚ) * ratio)).toNat,
          loop_start_src := 0}

/-- load (player.c:428-457) on an existing player instance: unload any prior
file, reset both track selections to 0, store the filename, mark the state
OPENING (1) and start the worker, then wait for the open to resolve.  The
worker outcome is abstracted by open_ok together with the decoded format; on
failure the worker clears file_open before running its epilogue (no decoder
to close, so the stored filename survives); afterwards the caller's callback
is registered whenever the file is not closed.  Returns the new state and
the success flag (file_open = 2). -/
def load (gsr : Nat) (p : AudioPlayer) (filename : String) (open_ok : Bool)
    (native_rate native_channels native_frames : Nat) : AudioPlayer × Bool :=
  let p0 := (unload gsr p).1
  let p1 := {p0 with track_a := 0, track_b := 0,
                     filename := filename, file_open := 1}
  let p2 :=
    if open_ok then
      worker_open_init gsr {p1 with samplerate := native_rate,
                                    channels := native_channels,
                                    sf_frames := native_frames}
    else worker_epilogue false {p1 with file_open := 0}
  let p3 := if p2.file_open ≠ 0 then {p2 with has_cb := true} else p2
  (p3, p2.file_open = 2)

/-- The bounds guard of get_player (player.c:112-116): the registry lookup
proceeds to index g_players[player_handle] exactly when this is true; the
source rejects only player_handle > MAX_PLAYERS or player_handle < 0. -/
def get_player_guard (player_handle : Int) : Bool :=
  !(decide (player_handle > MAX_PLAYERS) || decide (player_handle < 0))

/-- send_notifications only replaces the last-notified snapshot of the player. -/
theorem send_notifications_shape (gsr : Nat) (p : AudioPlayer) (param : NotifyParam) :
    ∃ s, (send_notifications gsr p param).1 = {p with last := s} := by
  unfold send_notifications
  split
  · exact ⟨p.last, rfl⟩
  · exact ⟨_, rfl⟩

/-- When only the transport field is selected and the current transport state
was already notified, the notification pass changes nothing and emits nothing. -/
theorem notif_pass_transport_steady (gsr : Nat) (q : AudioPlayer)
    (h : q.last.play_state = q.play_state) :
    notif_pass gsr q NotifyParam.TRANSPORT = (q.last, []) := by
  unfold notif_pass
  simp [h]

/-- Claim C9 (confirmed): unloading a handle whose file is already closed, and
stopping playback when the transport is already STOPPED (and that state has
been notified), leave the player state unchanged and emit no (duplicate)
notification callback. -/
theorem C9_unload_stop_idempotent (gsr : Nat) (p q : AudioPlayer)
    (h1 : p.file_open = 0) (h2 : q.play_state = STOPPED)
    (h3 : q.last.play_state = STOPPED) :
    unload gsr p = (p, []) ∧ stop_playback gsr q = (q, []) := by
  constructor
  · unfold unload
    simp [h1]
  · have hq : (if q.play_state ≠ STOPPED then {q with play_state := STOPPING} else q) = q := by
      simp [h2]
    unfold stop_playback
    rw [hq]
    unfold send_notifications
    by_cases hf : q.file_open ≠ 2
    · simp [hf]
    · rw [if_neg hf, notif_pass_transport_steady gsr q (h3.trans h2.symm)]

/-- Claim C9 witness: the idempotence theorem instantiated at a closed player
and at a stopped, already-notified player. -/
theorem C9_unload_stop_idempotent_witness :
    unload 44100 {basePlayer with file_open := 0} = ({basePlayer with file_open := 0}, []) ∧
    stop_playback 44100 basePlayer = (basePlayer, []) := by
  have h := C9_unload_stop_idempotent 44100 {basePlayer with file_open := 0} basePlayer
    (by decide) (by decide) (by decide)
  exact h

/-- Claim C3 counterexample: on an occupied slot whose file is not open
(file_open = 0), the in-range gain 1/2 does not round-trip: set_gain is a
no-op there and get_gain returns the neutral 0, not the requested value. -/
theorem C3_gain_closed_counterexample :
    (0 : ℚ) ≤ 1/2 ∧ (1/2 : ℚ) ≤ 2 ∧
    get_gain ((set_gain 44100 {basePlayer with file_open := 0} (1/2)).1) ≠ 1/2 := by
  refine ⟨by norm_num, by norm_num, ?_⟩
  have h : get_gain ((set_gain 44100 {basePlayer with file_open := 0} (1/2)).1) = 0 := rfl
  rw [h]
  norm_num

/-- Claim C3 (amended): for every player whose file is open, setting a gain in
[0, 2] and reading it back returns exactly that gain; a gain outside [0, 2] is
rejected with the whole player state (including the stored gain) retained and
no notification emitted. -/
theorem C3_gain_roundtrip (gsr : Nat) (p : AudioPlayer) (g : ℚ)
    (hopen : p.file_open = 2) :
    (0 ≤ g → g ≤ 2 → get_gain ((set_gain gsr p g).1) = g) ∧
    ((g < 0 ∨ g > 2) → set_gain gsr p g = (p, [])) := by
  have hguard : ¬ (p.file_open ≠ 2) := by simp [hopen]
  constructor
  · intro hg0 hg2
    have hrange : ¬ (g < 0 ∨ g > 2) := by
      push_neg
      exact ⟨hg0, hg2⟩
    unfold set_gain
    rw [if_neg hguard, if_neg hrange]
    obtain ⟨s, hs⟩ := send_notifications_shape gsr {p with gain := g} NotifyParam.GAIN
    rw [hs]
    unfold get_gain
    simp [hopen]
  · intro hrange
    unfold set_gain
    rw [if_neg hguard, if_pos hrange]

/-- Claim C3 witness: the round-trip theorem instantiated at the open base
player with gain 3/2, and its rejection half at gain 3. -/
theorem C3_gain_roundtrip_witness :
    get_gain ((set_gain 44100 basePlayer (3/2)).1) = 3/2 ∧
    set_gain 44100 basePlayer 3 = (basePlayer, []) :=
  ⟨(C3_gain_roundtrip 44100 basePlayer (3/2) (by decide)).1 (by norm_num) (by norm_num),
   (C3_gain_roundtrip 44100 basePlayer 3 (by decide)).2 (by norm_num)⟩

-- Evaluation helpers for the C numeric conversions on concrete values

theorem cTrunc_natCast (m : ℕ) : cTrunc ((m : ℕ) : ℚ) = (m : ℤ) := by
  unfold cTrunc
  rw [Rat.num_natCast, Rat.den_natCast]
  simp

theorem toU32_natCast_small (m : ℕ) (h : m < 4294967296) : toU32 (m : ℤ) = m := by
  unfold toU32
  omega

theorem sendn_fst_loop_start (gsr : Nat) (p : AudioPlayer) (param : NotifyParam) :
    ((send_notifications gsr p param).1).loop_start = p.loop_start := by
  obtain ⟨s, hs⟩ := send_notifications_shape gsr p param
  rw [hs]

theorem sendn_fst_loop_end (gsr : Nat) (p : AudioPlayer) (param : NotifyParam) :
    ((send_notifications gsr p param).1).loop_end = p.loop_end := by
  obtain ⟨s, hs⟩ := send_notifications_shape gsr p param
  rw [hs]

/-- set_position never changes the loop bounds. -/
theorem set_position_loop_fields (gsr : Nat) (p : AudioPlayer) (t : ℚ) :
    ((set_position gsr p t).1).loop_start = p.loop_start ∧
    ((set_position gsr p t).1).loop_end = p.loop_end := by
  simp only [set_position]
  split
  · exact ⟨rfl, rfl⟩
  · exact ⟨sendn_fst_loop_start .., sendn_fst_loop_end ..⟩

theorem ite_set_position_loop_start (c : Prop) [Decidable c] (gsr : Nat)
    (p : AudioPlayer) (t : ℚ) :
    ((if c then set_position gsr p t else (p, [])).1).loop_start = p.loop_start := by
  split
  · exact (set_position_loop_fields gsr p t).1
  · rfl

theorem ite_set_position_loop_end (c : Prop) [Decidable c] (gsr : Nat)
    (p : AudioPlayer) (t : ℚ) :
    ((if c then set_position gsr p t else (p, [])).1).loop_end = p.loop_end := by
  split
  · exact (set_position_loop_fields gsr p t).2
  · rfl

/-- A loop-start request whose native frame count is not below the current
loop end is silently ignored: the entire state is unchanged and nothing is
notified. -/
theorem set_loop_start_time_reject (gsr : Nat) (p : AudioPlayer) (t : ℚ)
    (h : time_to_native_frames p t ≥ p.loop_end) :
    set_loop_start_time gsr p t = (p, []) := by
  simp only [set_loop_start_time]
  rw [if_pos h]

/-- An accepted loop-start request stores exactly the requested native frame
count and leaves the loop end unchanged. -/
theorem set_loop_start_time_accept (gsr : Nat) (p : AudioPlayer) (t : ℚ)
    (h : time_to_native_frames p t < p.loop_end) :
    ((set_loop_start_time gsr p t).1).loop_start = time_to_native_frames p t ∧
    ((set_loop_start_time gsr p t).1).loop_end = p.loop_end := by
  simp only [set_loop_start_time]
  rw [if_neg (not_le.mpr h)]
  exact ⟨by rw [ite_set_position_loop_start], by rw [ite_set_position_loop_end]⟩

/-- A loop-end request whose native frame count is not in the open interval
(loop_start, post-SRC frames) is silently ignored. -/
theorem set_loop_end_time_reject (gsr : Nat) (p : AudioPlayer) (t : ℚ)
    (h : time_to_native_frames p t ≤ p.loop_start ∨ time_to_native_frames p t ≥ p.frames) :
    set_loop_end_time gsr p t = (p, []) := by
  simp only [set_loop_end_time]
  rw [if_pos h]

/-- An accepted loop-end request stores exactly the requested native frame
count and leaves the loop start unchanged. -/
theorem set_loop_end_time_accept (gsr : Nat) (p : AudioPlayer) (t : ℚ)
    (h1 : p.loop_start < time_to_native_frames p t)
    (h2 : time_to_native_frames p t < p.frames) :
    ((set_loop_end_time gsr p t).1).loop_end = time_to_native_frames p t ∧
    ((set_loop_end_time gsr p t).1).loop_start = p.loop_start := by
  simp only [set_loop_end_time]
  rw [if_neg (by push_neg; exact ⟨h1, h2⟩)]
  exact ⟨by rw [ite_set_position_loop_end], by rw [ite_set_position_loop_start]⟩

/-- Evaluation of time_to_native_frames on concrete values. -/
theorem time_to_native_frames_eval (p : AudioPlayer) (t : ℚ) (m : ℕ)
    (h : (p.samplerate : ℚ) * t = (m : ℚ)) (hm : m < 4294967296) :
    time_to_native_frames p t = m := by
  unfold time_to_native_frames
  rw [h, cTrunc_natCast, toU32_natCast_small m hm]

/-- Claim C2 counterexample: requesting loop start 20 s (200 native frames,
beyond the loop end 100) leaves the player completely unchanged — the value
is silently ignored, not clamped into range; and with resample ratio 2 the
end setter accepts 150 native frames, which exceeds the native frame count
100, so loop_end ≤ native_frame_count is not enforced either. -/
theorem C2_loop_counterexample :
    basePlayer.loop_end ≤ time_to_native_frames basePlayer 20 ∧
    set_loop_start_time 44100 basePlayer 20 = (basePlayer, []) ∧
    ((set_loop_end_time 44100 srcDoubledPlayer 15).1).loop_end = 150 ∧
    srcDoubledPlayer.sf_frames = 100 ∧ (100 : ℕ) < 150 := by
  have h20 : time_to_native_frames basePlayer 20 = 200 :=
    time_to_native_frames_eval _ _ 200 (by norm_num [basePlayer]) (by norm_num)
  have h15 : time_to_native_frames srcDoubledPlayer 15 = 150 :=
    time_to_native_frames_eval _ _ 150 (by norm_num [srcDoubledPlayer, basePlayer])
      (by norm_num)
  refine ⟨by rw [h20]; decide, ?_, ?_, rfl, by decide⟩
  · exact set_loop_start_time_reject _ _ _ (by rw [h20]; decide)
  · have h := (set_loop_end_time_accept 44100 srcDoubledPlayer 15
      (by rw [h15]; decide) (by rw [h15]; decide)).1
    rw [h, h15]

/-- Claim C2 (amended): both loop-bound setters preserve
loop_start < loop_end; an in-range request takes effect with exactly the
requested native frame value (the accepted end value is bounded by the
post-SRC total frame count p.frames, not by the native frame count), while an
out-of-range request is silently ignored — the whole player state is retained
and nothing is notified — rather than clamped. -/
theorem C2_loop_bounds (gsr : Nat) (p : AudioPlayer) (t u : ℚ)
    (hinv : p.loop_start < p.loop_end) :
    (((set_loop_start_time gsr p t).1).loop_start <
      ((set_loop_start_time gsr p t).1).loop_end) ∧
    (((set_loop_end_time gsr p u).1).loop_start <
      ((set_loop_end_time gsr p u).1).loop_end) ∧
    (time_to_native_frames p t < p.loop_end →
      ((set_loop_start_time gsr p t).1).loop_start = time_to_native_frames p t) ∧
    (p.loop_end ≤ time_to_native_frames p t → set_loop_start_time gsr p t = (p, [])) ∧
    (p.loop_start < time_to_native_frames p u → time_to_native_frames p u < p.frames →
      ((set_loop_end_time gsr p u).1).loop_end = time_to_native_frames p u) ∧
    ((time_to_native_frames p u ≤ p.loop_start ∨ p.frames ≤ time_to_native_frames p u) →
      set_loop_end_time gsr p u = (p, [])) := by
  refine ⟨?_, ?_, ?_, ?_, ?_, ?_⟩
  · by_cases hc : time_to_native_frames p t < p.loop_end
    · obtain ⟨h1, h2⟩ := set_loop_start_time_accept gsr p t hc
      rw [h1, h2]
      exact hc
    · rw [set_loop_start_time_reject gsr p t (not_lt.mp hc)]
      exact hinv
  · by_cases hc : time_to_native_frames p u ≤ p.loop_start ∨ time_to_native_frames p u ≥ p.frames
    · rw [set_loop_end_time_reject gsr p u hc]
      exact hinv
    · push_neg at hc
      obtain ⟨hend, hstart⟩ := set_loop_end_time_accept gsr p u hc.1 hc.2
      rw [hend, hstart]
      exact hc.1
  · intro hc
    exact (set_loop_start_time_accept gsr p t hc).1
  · intro hc
    exact set_loop_start_time_reject gsr p t hc
  · intro hc1 hc2
    exact (set_loop_end_time_accept gsr p u hc1 hc2).1
  · intro hc
    exact set_loop_end_time_reject gsr p u hc

/-- Claim C2 witness: on the open base player, loop start 2 s (20 native
frames, in range) takes effect and keeps the invariant, while loop end 50 s
(500 native frames, out of range) is ignored. -/
theorem C2_loop_bounds_witness :
    ((set_loop_start_time 44100 basePlayer 2).1).loop_start = 20 ∧
    ((set_loop_start_time 44100 basePlayer 2).1).loop_start <
      ((set_loop_start_time 44100 basePlayer 2).1).loop_end ∧
    set_loop_end_time 44100 basePlayer 50 = (basePlayer, []) := by
  have h2 : time_to_native_frames basePlayer 2 = 20 :=
    time_to_native_frames_eval _ _ 20 (by norm_num [basePlayer]) (by norm_num)
  have h50 : time_to_native_frames basePlayer 50 = 500 :=
    time_to_native_frames_eval _ _ 500 (by norm_num [basePlayer]) (by norm_num)
  have H := C2_loop_bounds 44100 basePlayer 2 50 (by decide)
  refine ⟨?_, H.1, H.2.2.2.2.2 (Or.inr (by rw [h50]; decide))⟩
  · have h := H.2.2.1 (by rw [h2]; decide)
    rw [h, h2]

theorem sum_map_div (l : List Nat) (f : Nat → ℚ) (d : ℚ) :
    (l.map (fun t => f t / d)).sum = (l.map f).sum / d := by
  induction l with
  | nil => simp
  | cons a l ih => simp [ih, add_div]

theorem even_channels_succ (n : Nat) :
    even_channels (n + 1) = even_channels n ++ (if n % 2 == 0 then [n] else []) := by
  unfold even_channels
  rw [List.range_succ, List.filter_append]
  cases h : (n % 2 == 0) <;> simp [List.filter, h]

theorem odd_channels_succ (n : Nat) :
    odd_channels (n + 1) = odd_channels n ++ (if n % 2 == 1 then [n] else []) := by
  unfold odd_channels
  rw [List.range_succ, List.filter_append]
  cases h : (n % 2 == 1) <;> simp [List.filter, h]

theorem even_channels_length (n : Nat) : (even_channels n).length = (n + 1) / 2 := by
  induction n with
  | zero => rfl
  | succ n ih =>
    rw [even_channels_succ, List.length_append, ih]
    by_cases h : n % 2 = 0 <;> simp [h] <;> omega

theorem odd_channels_length (n : Nat) : (odd_channels n).length = n / 2 := by
  induction n with
  | zero => rfl
  | succ n ih =>
    rw [odd_channels_succ, List.length_append, ih]
    by_cases h : n % 2 = 1 <;> simp [h] <;> omega

/-- Claim C4 counterexample: a 3-channel frame [1, 0, 1] with track_a = -1
gives leg A = (s0 + s2)/(3/2) = (1 + 1)/1 = 2, while the average of the
even-indexed channels 0 and 2 is (1 + 1)/2 = 1 — for an odd channel count the
left leg is not the average of the even channels. -/
theorem C4_downmix_counterexample :
    demux_frame_a 3 (-1) [1, 0, 1] = 2 ∧
    channel_avg (even_channels 3) [1, 0, 1] = 1 ∧ (2 : ℚ) ≠ 1 := by
  have he : even_channels 3 = [0, 2] := rfl
  refine ⟨?_, ?_, by norm_num⟩
  · unfold demux_frame_a
    rw [if_pos (by norm_num), if_pos (by norm_num), he]
    norm_num
  · unfold channel_avg
    rw [he]
    norm_num

/-- Claim C4 (amended): for a multi-channel source with a negative track
index, leg A is the sum of the even-indexed channels divided by
channels/2 rounded down — equal to their average exactly when the channel
count is even (the 4-channel case of the claim holds), but not for odd
channel counts, whose even-channel count is (channels+1)/2; leg B is always
the average of the odd-indexed channels; an explicit track index ≥ 0 copies
that native channel; a mono source splits the single channel equally (halved)
to both legs. -/
theorem C4_downmix (channels : Nat) (s : List ℚ) (tA tB : Int) :
    (1 < channels → tA < 0 → demux_frame_a channels tA s =
      ((even_channels channels).map (fun t => s.getD t 0)).sum /
        ((channels / 2 : Nat) : ℚ)) ∧
    (1 < channels → channels % 2 = 0 → tA < 0 →
      demux_frame_a channels tA s = channel_avg (even_channels channels) s) ∧
    (1 < channels → tB < 0 →
      demux_frame_b channels tB s = channel_avg (odd_channels channels) s) ∧
    (1 < channels → 0 ≤ tA → demux_frame_a channels tA s = s.getD tA.toNat 0) ∧
    (1 < channels → 0 ≤ tB → demux_frame_b channels tB s = s.getD tB.toNat 0) ∧
    (demux_frame_a 1 tA s = s.getD 0 0 / 2 ∧ demux_frame_b 1 tB s = s.getD 0 0 / 2) := by
  refine ⟨?_, ?_, ?_, ?_, ?_, rfl, rfl⟩
  · intro h1 hA
    unfold demux_frame_a
    rw [if_pos h1, if_pos hA, sum_map_div]
  · intro h1 h2 hA
    unfold demux_frame_a channel_avg
    rw [if_pos h1, if_pos hA, sum_map_div, even_channels_length]
    congr 2
    omega
  · intro h1 hB
    unfold demux_frame_b channel_avg
    rw [if_pos h1, if_pos hB, sum_map_div, odd_channels_length]
  · intro h1 hA
    unfold demux_frame_a
    rw [if_pos h1, if_neg (not_lt.mpr hA)]
  · intro h1 hB
    unfold demux_frame_b
    rw [if_pos h1, if_neg (not_lt.mpr hB)]

/-- Claim C4 witness: on the 4-channel frame [1, 2, 3, 4], leg A with
track_a = -1 is the average of channels 0 and 2, leg B with track_b = -1 the
average of channels 1 and 3, and an explicit track_a = 2 copies channel 2. -/
theorem C4_downmix_witness :
    demux_frame_a 4 (-1) [1, 2, 3, 4] = channel_avg (even_channels 4) [1, 2, 3, 4] ∧
    demux_frame_b 4 (-1) [1, 2, 3, 4] = channel_avg (odd_channels 4) [1, 2, 3, 4] ∧
    demux_frame_a 4 2 [1, 2, 3, 4] = 3 := by
  have H := C4_downmix 4 [1, 2, 3, 4] (-1) (-1)
  have H2 := C4_downmix 4 [1, 2, 3, 4] 2 (-1)
  refine ⟨H.2.1 (by norm_num) (by norm_num) (by norm_num),
          H.2.2.1 (by norm_num) (by norm_num), ?_⟩
  have h := H2.2.2.2.1 (by norm_num) (by norm_num)
  rw [h]
  rfl

/-- Claim C5 counterexample: with loop_start_src = 50 and loop_end_src = 100,
draining 10 samples at position 150 triggers the wrap, and the new position is
160 % 100 + 50 = 110, which is NOT inside [loop_start_src, loop_end_src) =
[50, 100) — the wrap formula pos % loop_end_src + loop_start_src can overshoot
the loop end when loop_start_src > 0. -/
theorem C5_loop_wrap_counterexample :
    (position_advance loopOffsetPlayer 10).play_pos_frames = 110 ∧
    ¬ ((position_advance loopOffsetPlayer 10).play_pos_frames < 100) ∧
    (position_advance loopOffsetPlayer 10).file_read_status = LOOPING := by
  have h : (position_advance loopOffsetPlayer 10).play_pos_frames = 110 := rfl
  exact ⟨h, by omega, rfl⟩

/-- Claim C5 (amended): with looping enabled, when the advanced play position
reaches the output-rate loop end (or the queued data is exhausted), the
process callback sets the position to
(advanced position) % loop_end_src + loop_start_src and requests a LOOPING
reload; the new position always lies in [loop_start_src, loop_end_src)
when loop_start_src = 0 (the claim's [0,T) instance), but in general it is
only bounded by loop_start_src + loop_end_src. -/
theorem C5_loop_wrap (p : AudioPlayer) (r : Nat)
    (hloop : p.loop = true)
    (hpos : p.play_pos_frames + r < 4294967296)
    (hend : 0 < p.loop_end_src) (hend32 : p.loop_end_src ≤ 4294967296)
    (htrig : p.play_pos_frames + r ≥ p.loop_end_src ∨
             (p.file_read_status = IDLE ∧ p.ringbuffer_a = [])) :
    (position_advance p r).file_read_status = LOOPING ∧
    (position_advance p r).loop_loaded = false ∧
    (position_advance p r).play_pos_frames =
      wrap32 ((p.play_pos_frames + r) % p.loop_end_src + p.loop_start_src) ∧
    (p.loop_start_src = 0 →
      (position_advance p r).play_pos_frames < p.loop_end_src) := by
  have hw : wrap32 (p.play_pos_frames + r) = p.play_pos_frames + r :=
    Nat.mod_eq_of_lt hpos
  have key : position_advance p r =
      {p with play_pos_frames :=
                wrap32 ((p.play_pos_frames + r) % p.loop_end_src + p.loop_start_src),
              loop_loaded := false,
              file_read_status := LOOPING} := by
    unfold position_advance
    simp only [hw, hloop, if_true]
    rw [if_pos htrig]
  refine ⟨by rw [key], by rw [key], by rw [key], ?_⟩
  intro h0
  rw [key]
  show wrap32 ((p.play_pos_frames + r) % p.loop_end_src + p.loop_start_src) <
    p.loop_end_src
  have h1 : (p.play_pos_frames + r) % p.loop_end_src < p.loop_end_src :=
    Nat.mod_lt _ hend
  unfold wrap32
  omega

/-- Claim C5 witness: on the base player with loop enabled, loop_start_src = 0
and loop_end_src = 100, draining 30 samples at position 90 wraps to
120 % 100 + 0 = 20 ∈ [0, 100) and requests LOOPING. -/
theorem C5_loop_wrap_witness :
    (position_advance loopZeroPlayer 30).file_read_status = LOOPING ∧
    (position_advance loopZeroPlayer 30).play_pos_frames < 100 := by
  have H := C5_loop_wrap loopZeroPlayer 30
    rfl (by decide) (by decide) (by decide) (Or.inl (by decide))
  exact ⟨H.1, H.2.2.2 rfl⟩

theorem sendn_fst_play_state (gsr : Nat) (p : AudioPlayer) (param : NotifyParam) :
    ((send_notifications gsr p param).1).play_state = p.play_state := by
  obtain ⟨s, hs⟩ := send_notifications_shape gsr p param
  rw [hs]

/-- The transport state left by stop_playback: STOPPING unless it was already
STOPPED. -/
theorem stop_playback_play_state (gsr : Nat) (p : AudioPlayer) :
    ((stop_playback gsr p).1).play_state =
      if p.play_state = STOPPED then p.play_state else STOPPING := by
  unfold stop_playback
  rw [sendn_fst_play_state]
  split <;> simp_all

/-- Claim C6 counterexample: a note-on for note 48 sets the pitch factor to
1.059463094359^12, which is close to but not exactly 2 — the code raises its
truncated decimal semitone constant to the 60-note power instead of computing
2^((60-note)/12), so only note 60 yields an exact ratio. -/
theorem C6_pitch_counterexample :
    ((midi_event 44100 basePlayer 0x90 48 100).1).pitch_shift ≠ 2 := by
  have key : ((midi_event 44100 basePlayer 0x90 48 100).1).pitch_shift =
      SEMITONE_RAT ^ ((60 : Int) - (48 : Int)) := by
    unfold midi_event
    rw [if_neg (by norm_num [basePlayer]), if_pos rfl]
    norm_num
  rw [key]
  have h12 : (60 : Int) - (48 : Int) = ((12 : Nat) : Int) := by norm_num
  rw [h12, zpow_natCast]
  norm_num [SEMITONE_RAT]

/-- Claim C6 (amended): a note-on (0x90 with non-zero velocity) routed to a
player sets the pitch factor to 1.059463094359^(60-note) — exactly 1 for note
60, but only approximately 2 for note 48 and 1/2 for note 72 — resets the play
position to the output-rate loop start, requests a SEEKING reload, resets both
ring buffers, records the note as last played, sets transport to STARTING and
emits no notification from the realtime path. -/
theorem C6_note_on (gsr : Nat) (p : AudioPlayer) (note vel : Nat)
    (hvel : vel ≠ 0) :
    ((midi_event gsr p 0x90 note vel).1).pitch_shift =
      SEMITONE_RAT ^ ((60 : Int) - (note : Int)) ∧
    ((midi_event gsr p 0x90 note vel).1).play_pos_frames = p.loop_start_src ∧
    ((midi_event gsr p 0x90 note vel).1).file_read_status = SEEKING ∧
    ((midi_event gsr p 0x90 note vel).1).ringbuffer_a = [] ∧
    ((midi_event gsr p 0x90 note vel).1).ringbuffer_b = [] ∧
    ((midi_event gsr p 0x90 note vel).1).last_note_played = note ∧
    ((midi_event gsr p 0x90 note vel).1).play_state = STARTING ∧
    (note = 60 → ((midi_event gsr p 0x90 note vel).1).pitch_shift = 1) ∧
    (midi_event gsr p 0x90 note vel).2 = [] := by
  have key : midi_event gsr p 0x90 note vel =
      ({p with pitch_shift := SEMITONE_RAT ^ ((60 : Int) - (note : Int)),
               play_pos_frames := p.loop_start_src,
               file_read_status := SEEKING,
               ringbuffer_a := [], ringbuffer_b := [],
               last_note_played := note,
               play_state := STARTING}, []) := by
    unfold midi_event
    rw [if_neg (by simp [hvel]), if_pos rfl]
  rw [key]
  refine ⟨rfl, rfl, rfl, rfl, rfl, rfl, rfl, ?_, rfl⟩
  intro h60
  subst h60
  norm_num

/-- Claim C6 witness: the note-on theorem at note 60, velocity 100 on the base
player — pitch factor exactly 1, transport STARTING, note recorded. -/
theorem C6_note_on_witness :
    ((midi_event 44100 basePlayer 0x90 60 100).1).pitch_shift = 1 ∧
    ((midi_event 44100 basePlayer 0x90 60 100).1).play_state = STARTING ∧
    ((midi_event 44100 basePlayer 0x90 60 100).1).last_note_played = 60 := by
  have H := C6_note_on 44100 basePlayer 60 100 (by decide)
  exact ⟨H.2.2.2.2.2.2.2.1 rfl, H.2.2.2.2.2.2.1, H.2.2.2.2.2.1⟩

/-- Claim C8 counterexample: a note-on with zero velocity for note 60 — NOT
matching the last played note 50 — does not leave the player unchanged: it
falls through to the note-on branch, which records note 60, restarts the
transport (STARTING) and overwrites the pitch factor. -/
theorem C8_note_off_counterexample :
    notePlayer.last_note_played = 50 ∧
    ((midi_event 44100 notePlayer 0x90 60 0).1).last_note_played = 60 ∧
    ((midi_event 44100 notePlayer 0x90 60 0).1).play_state = STARTING := by
  have key : midi_event 44100 notePlayer 0x90 60 0 =
      ({notePlayer with
          pitch_shift := SEMITONE_RAT ^ ((60 : Int) - ((60 : Nat) : Int)),
          play_pos_frames := notePlayer.loop_start_src,
          file_read_status := SEEKING,
          ringbuffer_a := [], ringbuffer_b := [],
          last_note_played := 60,
          play_state := STARTING}, []) := by
    unfold midi_event
    rw [if_neg (by norm_num [notePlayer, basePlayer]), if_pos rfl]
  rw [key]
  exact ⟨rfl, rfl, rfl⟩

/-- Claim C8 (amended): a note-off (0x80), or note-on with zero velocity,
whose note matches the last played note stops playback (STOPPING unless the
transport was already STOPPED), resets the pitch factor to 1 and clears the
last-note record; a 0x80 note-off for a non-matching note leaves the whole
player state unchanged; but a 0x90 note-on with zero velocity for a
non-matching note is treated as a fresh note-on trigger (records the note
and sets transport STARTING) rather than leaving the state unchanged. -/
theorem C8_note_off (gsr : Nat) (p : AudioPlayer) (cmd note vel : Nat) :
    ((cmd = 0x80 ∨ (cmd = 0x90 ∧ vel = 0)) → p.last_note_played = note →
      ((midi_event gsr p cmd note vel).1).pitch_shift = 1 ∧
      ((midi_event gsr p cmd note vel).1).last_note_played = 0 ∧
      ((midi_event gsr p cmd note vel).1).play_state =
        (if p.play_state = STOPPED then p.play_state else STOPPING)) ∧
    (cmd = 0x80 → p.last_note_played ≠ note →
      midi_event gsr p cmd note vel = (p, [])) ∧
    (cmd = 0x90 → vel = 0 → p.last_note_played ≠ note →
      ((midi_event gsr p cmd note vel).1).last_note_played = note ∧
      ((midi_event gsr p cmd note vel).1).play_state = STARTING) := by
  refine ⟨?_, ?_, ?_⟩
  · intro hcmd hmatch
    have key : midi_event gsr p cmd note vel =
        ({(stop_playback gsr p).1 with pitch_shift := 1, last_note_played := 0},
         (stop_playback gsr p).2) := by
      unfold midi_event
      rw [if_pos ⟨hcmd, hmatch⟩]
    rw [key]
    refine ⟨rfl, rfl, ?_⟩
    show ((stop_playback gsr p).1).play_state = _
    exact stop_playback_play_state gsr p
  · intro hcmd hne
    unfold midi_event
    rw [if_neg (by simp [hne]), if_neg (by omega), if_neg (by omega)]
  · intro hcmd hvel hne
    subst hcmd
    subst hvel
    have key : midi_event gsr p 0x90 note 0 =
        ({p with pitch_shift := SEMITONE_RAT ^ ((60 : Int) - (note : Int)),
                 play_pos_frames := p.loop_start_src,
                 file_read_status := SEEKING,
                 ringbuffer_a := [], ringbuffer_b := [],
                 last_note_played := note,
                 play_state := STARTING}, []) := by
      unfold midi_event
      rw [if_neg (by simp [hne]), if_pos rfl]
    rw [key]
    exact ⟨rfl, rfl⟩

/-- Claim C8 witness: on a player whose last played note is 60 and transport
PLAYING, a 0x80 note-off for note 60 resets the pitch factor, clears the
last note and sets STOPPING, while a 0x80 note-off for note 10 is a complete
no-op. -/
theorem C8_note_off_witness :
    ((midi_event 44100 matchPlayer 0x80 60 64).1).pitch_shift = 1 ∧
    ((midi_event 44100 matchPlayer 0x80 60 64).1).last_note_played = 0 ∧
    ((midi_event 44100 matchPlayer 0x80 60 64).1).play_state = STOPPING ∧
    midi_event 44100 matchPlayer 0x80 10 64 = (matchPlayer, []) := by
  have H := (C8_note_off 44100 matchPlayer 0x80 60 64).1 (Or.inl rfl) rfl
  have H2 := (C8_note_off 44100 matchPlayer 0x80 10 64).2.1 rfl (by decide)
  refine ⟨H.1, H.2.1, ?_, H2⟩
  have h := H.2.2
  rw [h]
  rfl

/-- Claim C7 (code_bug): the wait gate does not ensure that both ring buffers
have room — with buffer A having 4000 free bytes and buffer B full (0 free
bytes), a 40-byte block passes the gate immediately even though B lacks room —
and the subsequent per-frame write to B is short (0 of 4 bytes) while the
underrun error branch can never fire for any buffer states, because it tests
4 < bytes_written and a write never returns more than the 4 requested bytes
(the comparison is inverted in the source). -/
theorem C7_write_gate_bug :
    (∀ spaceA spaceB : Nat, underrun_branch spaceA spaceB = false) ∧
    rb_wait_condition 4000 0 40 LOADING = false ∧
    (0 : Nat) < 40 ∧
    rb_write_count 0 4 = 0 := by
  refine ⟨?_, by decide, by decide, by decide⟩
  intro a b
  unfold underrun_branch rb_write_count
  simp only [decide_eq_false_iff_not, not_lt]
  omega

/-- Claim C10 (confirmed): every load on an existing instance leaves both
track selections at 0 — they are reset before the worker is started and no
later step of the load (neither the successful open initialisation nor the
failure epilogue) touches them, so a prior track selection never survives a
(re)load, whether or not the open succeeds. -/
theorem C10_load_resets_tracks (gsr : Nat) (p : AudioPlayer) (fn : String)
    (ok : Bool) (nr nc nf : Nat) :
    ((load gsr p fn ok nr nc nf).1).track_a = 0 ∧
    ((load gsr p fn ok nr nc nf).1).track_b = 0 := by
  cases ok <;> simp [load, worker_open_init, worker_epilogue]

/-- Claim C1 (code_bug): the guard of get_player admits handle 17, which is not
a valid index of the 17-slot registry table g_players[MAX_PLAYERS] (valid
indices are 0..16), so the lookup reads one element past the end of the table
(undefined behavior) instead of returning NULL; handles 18 and -1 are rejected,
and every handle the guard admits lies in [0, 17] rather than [0, 17). -/
theorem C1_get_player_guard_off_by_one :
    get_player_guard 17 = true ∧ ¬ ((17 : Int) < MAX_PLAYERS) ∧
    get_player_guard 18 = false ∧ get_player_guard (-1) = false ∧
    ∀ h : Int, (get_player_guard h = true ↔ (0 ≤ h ∧ h ≤ MAX_PLAYERS)) := by
  refine ⟨by decide, by decide, by decide, by decide, ?_⟩
  intro h
  unfold get_player_guard MAX_PLAYERS
  simp only [Bool.not_eq_true', Bool.or_eq_false_iff, decide_eq_false_iff_not]
  omega

end Zyn
